import Mathlib

/-!
Verification of the sakulink library core (queue engine, track-end state
machine, node reconnect lifecycle, session resume, node failover, repeat
flags) against its natural-language specification.

Each definition below is a shallow embedding of the corresponding
TypeScript source: `Queue` from `src/structures/Queue.ts`, the track-end
event routing from `Node.trackEnd` / `Node.queueEnd`, the reconnect state
machine from `Node.connect` / `Node.close` / `Node.reconnect` /
`Node.destroy` / `Node.open`, the session-resume loop from the `ready`
branch of `Node.message`, `Player.moveNode`, and the three repeat-mode
setters of `Player`.
-/

/-! ## Queue engine

The source `Queue` extends `Array<Track | UnresolvedTrack>` and adds the
`current` / `previous` slots.  The array part is `list`; tracks are an
arbitrary type `α` (the queue logic never inspects track fields). -/

deriving instance DecidableEq for Except

structure Queue (α : Type) where
  list : List α
  current : Option α
  previous : Option α
deriving DecidableEq, Repr

/-- Source getter `totalSize`: `this.length + (this.current ? 1 : 0)`. -/
def Queue.totalSize {α : Type} (q : Queue α) : Nat :=
  q.list.length + (if q.current.isSome then 1 else 0)

/-- Source `TrackUtils.validate`: non-arrays must carry a track symbol tag
(always true in this typed embedding), arrays must be non-empty and all
elements tagged (an empty array falls through and yields `false`). -/
def TrackUtils.validate {α : Type} : α ⊕ List α → Bool
  | Sum.inl _ => true
  | Sum.inr l => !l.isEmpty

/-- JavaScript `Array.prototype.splice(start, deleteCount)` semantics on a
list: a negative start counts from the end clamped at 0, a non-negative
start is clamped at the length.  Returns (remaining, removed). -/
def jsSplice {α : Type} (l : List α) (start : Int) (deleteCount : Nat) :
    List α × List α :=
  let len := l.length
  let actualStart : Nat :=
    if start < 0 then ((len : Int) + start).toNat else min start.toNat len
  (l.take actualStart ++ l.drop (actualStart + deleteCount),
   (l.drop actualStart).take deleteCount)

/-- Source `Queue.add(track, offset?)`.  Validation failure and an
out-of-range offset throw `RangeError` (modelled as `Except.error`).  With
no `current`, the first element of a batch becomes `current` and the remainder
is pushed; a single track just becomes `current`.  Otherwise the items are
spliced in at `offset` or pushed at the tail. -/
def Queue.add {α : Type} (q : Queue α) (track : α ⊕ List α)
    (offset : Option Int) : Except String (Queue α) :=
  if !TrackUtils.validate track then
    Except.error "Track must be a Track or Track[]."
  else if q.current.isNone then
    match track with
    | Sum.inr l => Except.ok { q with current := l.head?, list := q.list ++ l.tail }
    | Sum.inl x => Except.ok { q with current := some x }
  else
    let items : List α := match track with
      | Sum.inl x => [x]
      | Sum.inr l => l
    match offset with
    | some off =>
        if off < 0 ∨ off > (q.list.length : Int) then
          Except.error "Offset must be between 0 and length."
        else
          Except.ok { q with
            list := q.list.take off.toNat ++ items ++ q.list.drop off.toNat }
    | none => Except.ok { q with list := q.list ++ items }

/-- Source `Queue.remove`.  The two-argument form throws on
`start >= end || start >= this.length` and otherwise splices out
`end - start` elements from `start`; the one-argument form is
`splice(position, 1)`.  Returns the new queue plus the removed tracks. -/
def Queue.remove {α : Type} (q : Queue α) (start : Int) (stop : Option Int) :
    Except String (Queue α × List α) :=
  match stop with
  | some e =>
      if start ≥ e ∨ start ≥ (q.list.length : Int) then
        Except.error "Invalid start or end values."
      else
        let r := jsSplice q.list start (e - start).toNat
        Except.ok ({ q with list := r.1 }, r.2)
  | none =>
      let r := jsSplice q.list start 1
      Except.ok ({ q with list := r.1 }, r.2)

/-- Source `Queue.clear`: `this.splice(0)` empties the array part only. -/
def Queue.clear {α : Type} (q : Queue α) : Queue α :=
  { q with list := [] }

/-- Swap two positions of a list (out-of-range indices leave it unchanged),
used by the Fisher–Yates loop of `Queue.shuffle`. -/
def listSwap {α : Type} (l : List α) (i j : Nat) : List α :=
  match l.get? i, l.get? j with
  | some a, some b => (l.set i b).set j a
  | _, _ => l

/-- Source `Queue.shuffle`: for `i` from `length - 1` down to `1`, pick
`j = floor(random * (i + 1))` and swap.  The random draws are supplied as
`rand`, reduced mod `i + 1` exactly as the floor of a `[0, 1)` draw times
`i + 1` would be. -/
def shuffleList {α : Type} (l : List α) (rand : Nat → Nat) : List α :=
  (List.range l.length).reverse.foldl
    (fun acc i => if i = 0 then acc else listSwap acc i (rand i % (i + 1))) l

/-- Shuffle acting on the pending (non-current) sequence of a queue. -/
def Queue.shuffleWith {α : Type} (q : Queue α) (rand : Nat → Nat) : Queue α :=
  { q with list := shuffleList q.list rand }

/-! ## Queue mutations as a datatype (for the totalSize invariant) -/

/-- The queue mutations named by the spec: `add` (with or without offset),
`remove`, `clear`, `shuffle`, and the shift / unshift pair performed by the
track-end handler (`advance` is `previous = current; current = shift()`,
the reinsertions are `unshift(current)` / `add(current)`). -/
inductive QOp (α : Type) where
  | add (track : α ⊕ List α) (offset : Option Int)
  | remove (start : Int) (stop : Option Int)
  | clear
  | shuffle (rand : Nat → Nat)
  | advance
  | reinsertHead (x : α)
  | reinsertTail (x : α)

/-- Apply one mutation; a throwing `add` / `remove` leaves the queue as it
was (the exception propagates to the caller before any mutation). -/
def applyQOp {α : Type} (q : Queue α) : QOp α → Queue α
  | QOp.add t off =>
      match Queue.add q t off with
      | Except.ok q2 => q2
      | Except.error _ => q
  | QOp.remove s e =>
      match Queue.remove q s e with
      | Except.ok r => r.1
      | Except.error _ => q
  | QOp.clear => q.clear
  | QOp.shuffle r => q.shuffleWith r
  | QOp.advance => { q with previous := q.current, current := q.list.head?, list := q.list.tail }
  | QOp.reinsertHead x => { q with list := x :: q.list }
  | QOp.reinsertTail x => { q with list := q.list ++ [x] }

/-! ## Track-end event routing (`Node.trackEnd` / `Node.queueEnd`) -/

/-- Player lifecycle states from `Utils.State`. -/
inductive PState where
  | DISCONNECTED | CONNECTING | CONNECTED | DISCONNECTING | DESTROYING
  | MOVING | RESUMING
deriving DecidableEq, Repr

/-- Lavalink track-end reasons appearing in `Node.trackEnd` (`finished`
stands for any reason outside the four tested literals). -/
inductive EndReason where
  | finished | loadFailed | stopped | replaced | cleanup
deriving DecidableEq, Repr

/-- The domain events `Node.trackEnd` / `Node.queueEnd` can emit;
`autoplayStarted` records the `handleAutoplay` call that replaces the
`queueEnd` emission when autoplay is on. -/
inductive DomainEvent where
  | trackEnd | queueEnd | autoplayStarted
deriving DecidableEq, Repr

/-- The slice of `Player` state that `Node.trackEnd` reads and writes. -/
structure PlayerQ (α : Type) where
  state : PState
  trackRepeat : Bool
  queueRepeat : Bool
  isAutoplay : Bool
  playing : Bool
  queue : Queue α
deriving DecidableEq, Repr

/-- Result of running the track-end handler: the mutated player, the
domain events emitted in order, and whether `player.play()` was invoked. -/
structure TrackEndOut (α : Type) where
  player : PlayerQ α
  events : List DomainEvent
  played : Bool
deriving DecidableEq, Repr

/-- Source `Node.queueEnd`: clear `current`, set `playing` from
`isAutoplay`, then either hand off to `handleAutoplay` or emit
`queueEnd`. -/
def Node.queueEnd {α : Type} (p : PlayerQ α) : TrackEndOut α :=
  let p2 := { p with queue := { p.queue with current := none }, playing := p.isAutoplay }
  if p.isAutoplay then ⟨p2, [DomainEvent.autoplayStarted], true⟩
  else ⟨p2, [DomainEvent.queueEnd], false⟩

/-- Source `Node.trackEnd` (the `track` argument of the source is
`player.queue.current`, captured by `handleEvent` just before the call).
The branches, in source order: MOVING / RESUMING guard; `loadFailed` /
`cleanup` advance; `replaced`; repeat modes (with the extra `stopped`
re-shift); non-empty queue advance; queue end.  `autoPlay` is the manager
option of the same name. -/
def Node.trackEnd {α : Type} (autoPlay : Bool) (p : PlayerQ α)
    (reason : EndReason) : TrackEndOut α :=
  let track := p.queue.current
  if p.state = PState.MOVING ∨ p.state = PState.RESUMING then ⟨p, [], false⟩
  else if reason = EndReason.loadFailed ∨ reason = EndReason.cleanup then
    let q1 : Queue α :=
      { p.queue with previous := p.queue.current, current := p.queue.list.head?,
                     list := p.queue.list.tail }
    if q1.current.isNone then Node.queueEnd { p with queue := q1 }
    else ⟨{ p with queue := q1 }, [DomainEvent.trackEnd], autoPlay⟩
  else if reason = EndReason.replaced then
    ⟨{ p with queue := { p.queue with previous := p.queue.current } },
     [DomainEvent.trackEnd], false⟩
  else if track.isSome && (p.trackRepeat || p.queueRepeat) then
    let q0 := p.queue
    let l1 : List α :=
      if p.trackRepeat then q0.current.elim q0.list (fun c => c :: q0.list)
      else q0.current.elim q0.list (fun c => q0.list ++ [c])
    let q2 : Queue α := { q0 with previous := q0.current, current := l1.head?, list := l1.tail }
    if reason = EndReason.stopped then
      let q3 : Queue α := { q2 with current := q2.list.head?, list := q2.list.tail }
      if q3.current.isNone then
        let r := Node.queueEnd { p with queue := q3 }
        ⟨r.player, DomainEvent.trackEnd :: r.events, r.played⟩
      else ⟨{ p with queue := q3 }, [DomainEvent.trackEnd], autoPlay⟩
    else ⟨{ p with queue := q2 }, [DomainEvent.trackEnd], autoPlay⟩
  else if p.queue.list.length ≠ 0 then
    let q1 : Queue α :=
      { p.queue with previous := p.queue.current, current := p.queue.list.head?,
                     list := p.queue.list.tail }
    ⟨{ p with queue := q1 }, [DomainEvent.trackEnd], autoPlay⟩
  else Node.queueEnd p

/-! ## Node connection lifecycle (`connect` / `close` / `reconnect` /
`destroy` / `open`) -/

/-- The bookkeeping of one `Node`: socket presence plus `readyState ==
OPEN`, `reconnectAttempts` (initially 1), whether a reconnect timeout is
pending, membership in `manager.nodes`, and counters for the fatal
"Unable to connect" `nodeError` and the `nodeDestroy` emission. -/
structure NodeConn where
  hasSocket : Bool
  sockOpen : Bool
  attempts : Nat
  timerPending : Bool
  inNodeSet : Bool
  fatalErrors : Nat
  nodeDestroyEmitted : Bool
deriving DecidableEq, Repr

/-- Source getter `connected`: a socket exists and its readyState is
OPEN. -/
def NodeConn.connected (s : NodeConn) : Bool :=
  s.hasSocket && s.sockOpen

/-- Source `Node.destroy`: a no-op unless connected; otherwise close the
socket with `(1000, "destroy")`, drop it, reset `reconnectAttempts` to 1,
clear the reconnect timeout, emit `nodeDestroy` and remove the node from
the node set of the manager. -/
def NodeConn.destroyStep (s : NodeConn) : NodeConn :=
  if !s.connected then s
  else { s with hasSocket := false, sockOpen := false, attempts := 1,
                timerPending := false, nodeDestroyEmitted := true,
                inNodeSet := false }

/-- Source `Node.connect`: a no-op when connected, otherwise open a fresh
socket (not yet in the OPEN readyState). -/
def NodeConn.connectStep (s : NodeConn) : NodeConn :=
  if s.connected then s else { s with hasSocket := true }

/-- The externally driven events of the node lifecycle: a WebSocket close
(with code and whether the reason string is `"destroy"`), the reconnect
timeout firing, the WebSocket open event, and an explicit `destroy()`
call. -/
inductive NEvent where
  | close (code : Nat) (reasonIsDestroy : Bool)
  | timer
  | openEvt
  | destroyCall
deriving DecidableEq, Repr

/-- One step of the node lifecycle, `retryAmount` being the configured
ceiling (`none` models `Infinity`, the default).  `close` marks the socket
non-open and schedules `reconnect()` unless `code == 1000 &&
reason == "destroy"`.  The timer body either (at `attempts >=
retryAmount`) emits the fatal error and calls `destroy()`, or discards the
socket, reconnects and increments `attempts`.  `open()` clears the pending
timer (and the readyState becomes OPEN). -/
def nodeStep (retryAmount : Option Nat) (s : NodeConn) : NEvent → NodeConn
  | NEvent.close code reasonIsDestroy =>
      let s1 := { s with sockOpen := false }
      if code ≠ 1000 ∨ reasonIsDestroy = false then { s1 with timerPending := true }
      else s1
  | NEvent.timer =>
      if s.timerPending then
        let s1 := { s with timerPending := false }
        let exhausted := match retryAmount with
          | some n => decide (s1.attempts ≥ n)
          | none => false
        if exhausted then
          NodeConn.destroyStep { s1 with fatalErrors := s1.fatalErrors + 1 }
        else
          let s2 := NodeConn.connectStep { s1 with hasSocket := false }
          { s2 with attempts := s2.attempts + 1 }
      else s
  | NEvent.openEvt => { s with timerPending := false, sockOpen := true }
  | NEvent.destroyCall => s.destroyStep

/-- Run a sequence of lifecycle events. -/
def runNode (retryAmount : Option Nat) (init : NodeConn) (evts : List NEvent) :
    NodeConn :=
  evts.foldl (nodeStep retryAmount) init

/-- A freshly connected node: socket open, `reconnectAttempts = 1`, in the
node set of the manager, no pending timer, nothing emitted yet. -/
def NodeConn.fresh : NodeConn :=
  ⟨true, true, 1, false, true, 0, false⟩

/-! ## Session resume (the `ready` branch of `Node.message`) -/

/-- The per-guild persisted player snapshot read back from the store
(`manager.db.get("players." + guildId)`); only the fields the resume loop
tests or needs here.  A missing snapshot is modelled by every field being
`none` (the source substitutes `{}`). -/
structure Snapshot where
  guild : Option String
  voiceChannel : Option String
  textChannel : Option String
  current : Option String
deriving DecidableEq, Repr

/-- The `{}` default used when no snapshot is persisted. -/
def Snapshot.empty : Snapshot := ⟨none, none, none, none⟩

/-- The state the resume loop touches: the persisted store restricted to
the `players.*` keys (an association list keyed by guild id) and the set
of locally tracked players (their guild ids, in creation order). -/
structure ResumeState where
  db : List (String × Snapshot)
  players : List String
deriving DecidableEq, Repr

/-- Store lookup by guild id. -/
def dbGet (db : List (String × Snapshot)) (g : String) : Option Snapshot :=
  (db.find? (fun e => e.1 = g)).map (fun e => e.2)

/-- Store deletion by guild id. -/
def dbDelete (db : List (String × Snapshot)) (g : String) :
    List (String × Snapshot) :=
  db.filter (fun e => e.1 ≠ g)

/-- Source resume loop (`for (const resumedPlayer of resumedPlayers)`),
faithful to its control flow: each guard uses `return`, which exits the
whole handler, not `continue`.  In order: an already-tracked guild returns;
a snapshot missing `guild`, `voiceChannel` or `textChannel` deletes the
stale key and returns; otherwise `manager.create` registers the player;
a snapshot with no `current` track returns; the full resume path finishes
and the loop proceeds with the next remote player. -/
def resumePlayers : List String → ResumeState → ResumeState
  | [], st => st
  | g :: rest, st =>
      if st.players.contains g then st
      else
        let snap := (dbGet st.db g).getD Snapshot.empty
        if snap.guild.isNone || snap.voiceChannel.isNone || snap.textChannel.isNone then
          { st with db := dbDelete st.db g }
        else
          let st2 := { st with players := st.players ++ [g] }
          if snap.current.isNone then st2
          else resumePlayers rest st2

/-! ## Player failover (`Player.moveNode`) -/

/-- The node facts `Player.moveNode` consults: identifier, connectivity,
and the cpu stats `leastLoadNodes` sorts by. -/
structure NodeInfo where
  identifier : String
  connected : Bool
  lavalinkLoad : Nat
  cores : Nat
deriving DecidableEq, Repr

/-- Ascending insertion for the load order `lavalinkLoad / cores * 100`
(compared by cross-multiplication, both denominators being the positive
core counts). -/
def insertByLoad (n : NodeInfo) : List NodeInfo → List NodeInfo
  | [] => [n]
  | m :: ms =>
      if n.lavalinkLoad * m.cores ≤ m.lavalinkLoad * n.cores then n :: m :: ms
      else m :: insertByLoad n ms

/-- Source `Manager.leastLoadNodes`: the connected nodes sorted ascending
by cpu load per core. -/
def Manager.leastLoadNodes (nodes : List NodeInfo) : List NodeInfo :=
  (nodes.filter (fun n => n.connected)).foldr insertByLoad []

/-- The six filter categories plus the filter volume, copied wholesale by
`moveNode`; the payload of each category is abstracted here. -/
structure FiltersR where
  distortion : Option Nat
  equalizer : List Int
  karaoke : Option Nat
  rotation : Option Nat
  timescale : Option Nat
  vibrato : Option Nat
  volume : Nat
deriving DecidableEq, Repr

/-- The slice of `Player` that `moveNode` reads: guild id, the encoded
payload of `queue.current` (`queue.current?.track`), the cached position,
volume, paused flag, filters, the identifier of the owning node, and the cached
voice credentials. -/
structure MPlayer where
  guild : String
  currentTrack : Option String
  position : Nat
  volume : Nat
  paused : Bool
  filters : FiltersR
  nodeId : String
  voiceToken : String
  voiceEndpoint : String
  voiceSessionId : String
deriving DecidableEq, Repr

/-- The first `updatePlayer` payload `moveNode` pushes to the destination
node. -/
structure UpdatePayload where
  guildId : String
  encodedTrack : Option String
  position : Nat
  volume : Nat
  paused : Bool
  filters : FiltersR
deriving DecidableEq, Repr

/-- The second `updatePlayer` payload: the voice-session credentials. -/
structure VoicePayload where
  token : String
  endpoint : String
  sessionId : String
deriving DecidableEq, Repr

/-- Source `Player.moveNode(node?)`.  Target resolution follows the source:
`node || leastLoadNodes.first().identifier || nodes.filter(connected)
.first().identifier`; an unknown target throws, a target equal to the
current node returns without pushing anything (`none`).  Otherwise the
position is fetched live from the source node when it is connected
(`fetchedPosition` is that REST response) and the cached `position`
otherwise, the full-state payload then the voice payload are pushed, and
the node reference of the player becomes the destination. -/
def Player.moveNode (nodes : List NodeInfo) (fetchedPosition : Nat)
    (p : MPlayer) (node? : Option String) :
    Except String (Option (UpdatePayload × VoicePayload) × MPlayer) :=
  let resolved : Option String :=
    (node?.orElse
      (fun _ => ((Manager.leastLoadNodes nodes).head?).map NodeInfo.identifier)).orElse
      (fun _ => ((nodes.filter (fun n => n.connected)).head?).map NodeInfo.identifier)
  match resolved with
  | none => Except.error "No nodes available."
  | some node =>
      if nodes.any (fun n => decide (n.identifier = node)) then
        if p.nodeId = node then Except.ok (none, p)
        else
          let srcConnected :=
            nodes.any (fun n => decide (n.identifier = p.nodeId) && n.connected)
          let position := if srcConnected then fetchedPosition else p.position
          let payload : UpdatePayload :=
            ⟨p.guild, p.currentTrack, position, p.volume, p.paused, p.filters⟩
          let voice : VoicePayload := ⟨p.voiceToken, p.voiceEndpoint, p.voiceSessionId⟩
          Except.ok (some (payload, voice), { p with nodeId := node })
      else Except.error "No nodes available."

/-! ## Repeat-mode setters (`Player.setTrackRepeat` / `setQueueRepeat` /
`setDynamicRepeat`) -/

/-- The three repeat flags of `Player`, all `false` at construction. -/
structure RepeatFlags where
  trackRepeat : Bool
  queueRepeat : Bool
  dynamicRepeat : Bool
deriving DecidableEq, Repr

/-- Source `Player.setTrackRepeat`. -/
def Player.setTrackRepeat (rep : Bool) (f : RepeatFlags) : RepeatFlags :=
  if rep then ⟨true, false, false⟩ else ⟨false, false, false⟩

/-- Source `Player.setQueueRepeat`. -/
def Player.setQueueRepeat (rep : Bool) (f : RepeatFlags) : RepeatFlags :=
  if rep then ⟨false, true, false⟩ else ⟨false, false, false⟩

/-- Source `Player.setDynamicRepeat(repeat, ms)`: throws `RangeError` when
`queue.size <= 1` (before looking at `repeat`); otherwise sets the triple
(the `ms` shuffle interval does not touch the flags). -/
def Player.setDynamicRepeat (rep : Bool) (queueSize : Nat) (ms : Nat)
    (f : RepeatFlags) : Except String RepeatFlags :=
  if queueSize ≤ 1 then Except.error "The queue size must be greater than 1."
  else if rep then Except.ok ⟨false, false, true⟩
  else Except.ok ⟨false, false, false⟩

/-- A call to one of the three setters (for `dynamic`, together with the
`queue.size` and `ms` it sees). -/
inductive RepeatCall where
  | track (rep : Bool)
  | queueLoop (rep : Bool)
  | dynamic (rep : Bool) (queueSize : Nat) (ms : Nat)
deriving DecidableEq, Repr

/-- Apply one setter call; a throwing `setDynamicRepeat` leaves the flags
unchanged (the exception fires before any assignment). -/
def applyRepeatCall (f : RepeatFlags) : RepeatCall → RepeatFlags
  | RepeatCall.track r => Player.setTrackRepeat r f
  | RepeatCall.queueLoop r => Player.setQueueRepeat r f
  | RepeatCall.dynamic r s ms =>
      match Player.setDynamicRepeat r s ms f with
      | Except.ok f2 => f2
      | Except.error _ => f

/-- At most one of the three repeat flags is set. -/
def atMostOneRepeat (f : RepeatFlags) : Bool :=
  (if f.trackRepeat then 1 else 0) + (if f.queueRepeat then 1 else 0)
    + (if f.dynamicRepeat then 1 else 0) ≤ 1

/-! ## Claims -/

/-- C3: for every queue and every sequence of queue mutations (add with or
without offset, remove, clear, shuffle, and the shift / unshift of
track-end handling), `totalSize` equals the length of the pending sequence
plus 1 if `current` is non-null and 0 otherwise — `totalSize` is a derived
getter, so the invariant holds after any mutation sequence. -/
theorem c3_totalSize_invariant {α : Type} (ops : List (QOp α)) (q : Queue α) :
    Queue.totalSize (ops.foldl applyQOp q) =
      (ops.foldl applyQOp q).list.length
        + (if (ops.foldl applyQOp q).current.isNone then 0 else 1) := by
  cases h : (ops.foldl applyQOp q).current <;> simp [Queue.totalSize, h]

/-- C5 counterexample: the claim predicts that after `add` on a queue with
`current = null` the pending sequence equals the batch minus its first
element.  On the queue with pending `[7]` and no current, adding the batch
`[1, 2]` leaves pending `[7, 2]`, not `[2]`. -/
theorem c5_counterexample :
    (Queue.add (⟨[7], none, none⟩ : Queue Nat) (Sum.inr [1, 2]) none).map
        Queue.list ≠ Except.ok [2] := by
  decide

/-- C5 amended: on a queue with `current = null`, `add` with a non-empty
batch makes the first element of the batch the new `current` and appends the
remaining elements, in order, to the existing pending sequence (which
equals the batch minus its first element only when the pending sequence
was empty). -/
theorem c5_add_no_current_amended {α : Type} (q : Queue α) (x : α)
    (xs : List α) (offset : Option Int) (h : q.current = none) :
    Queue.add q (Sum.inr (x :: xs)) offset =
      Except.ok { q with current := some x, list := q.list ++ xs } := by
  simp [Queue.add, TrackUtils.validate, h]

/-- C5 witness: the amended claim at the empty queue and the batch
`[1, 2, 3]`. -/
theorem c5_witness :
    Queue.add (⟨[], none, none⟩ : Queue Nat) (Sum.inr [1, 2, 3]) none =
      Except.ok ⟨[2, 3], some 1, none⟩ :=
  c5_add_no_current_amended ⟨[], none, none⟩ 1 [2, 3] none rfl

/-- C6 counterexample: the claim predicts that `remove(position)` removes
exactly one element for every position.  On the empty queue,
`remove(0)` removes nothing. -/
theorem c6_counterexample :
    (Queue.remove (⟨[], none, none⟩ : Queue Nat) 0 none).map
        (fun r => r.2.length) ≠ Except.ok 1 := by
  decide

/-- C6 amended: `remove(start, end)` throws exactly when `start >= end` or
`start >= length`, and otherwise removes exactly the elements of the
pending sequence at positions in `[start, end)`; `remove(position)`
removes exactly one element when the pending sequence is non-empty and
`position < length`, and removes nothing otherwise. -/
theorem c6_remove_amended {α : Type} :
    (∀ (q : Queue α) (s e : Int),
        s ≥ e ∨ s ≥ (q.list.length : Int) →
          Queue.remove q s (some e) =
            Except.error "Invalid start or end values.")
  ∧ (∀ (q : Queue α) (s e : Nat), s < e → s < q.list.length →
        Queue.remove q (s : Int) (some (e : Int)) =
          Except.ok ({ q with list := q.list.take s ++ q.list.drop e },
            (q.list.drop s).take (e - s)))
  ∧ (∀ (q : Queue α) (pos : Int),
        (Queue.remove q pos none).map (fun r => r.2.length) =
          Except.ok
            (if 0 < q.list.length ∧ pos < (q.list.length : Int) then 1
             else 0)) := by
  refine ⟨?_, ?_, ?_⟩
  · intro q s e h
    simp [Queue.remove, h]
  · intro q s e h1 h2
    have hg : ¬((s : Int) ≥ (e : Int) ∨ (s : Int) ≥ (q.list.length : Int)) := by
      push_neg
      exact ⟨by exact_mod_cast h1, by exact_mod_cast h2⟩
    have hts : ((e : Int) - (s : Int)).toNat = e - s := by omega
    have hsn : ¬((s : Int) < 0) := by omega
    have hst : (s : Int).toNat = s := by omega
    simp only [Queue.remove, jsSplice, hg, if_false, hts, hsn, hst, if_neg,
      not_false_iff]
    have hmin : min s q.list.length = s := Nat.min_eq_left h2.le
    have hse : s + (e - s) = e := by omega
    rw [hmin, hse]
  · intro q pos
    simp only [Queue.remove, jsSplice, Except.map]
    congr 1
    rw [List.length_take, List.length_drop]
    by_cases hneg : pos < 0
    · simp only [hneg, if_true]
      by_cases hlen : 0 < q.list.length
      · have hc : pos < (q.list.length : Int) := by omega
        rw [if_pos ⟨hlen, hc⟩]
        omega
      · simp only [Nat.not_lt, Nat.le_zero] at hlen
        simp [hlen]
    · simp only [hneg, if_false]
      by_cases hc : 0 < q.list.length ∧ pos < (q.list.length : Int)
      · rw [if_pos hc]
        have hm : min pos.toNat q.list.length = pos.toNat := by omega
        rw [hm]
        omega
      · rw [if_neg hc]
        rw [Decidable.not_and_iff_or_not] at hc
        rcases hc with hc | hc <;> omega

/-- C6 witness: the three parts of the amended claim at concrete inputs — the
range form on `[10, 20, 30]` with `start = 0, end = 2`, the rejected call
`remove(2, 1)`, and the single-position form at position 5 of a 3-element
queue. -/
theorem c6_witness :
    Queue.remove (⟨[10, 20, 30], none, none⟩ : Queue Nat) 0 (some 2) =
        Except.ok (⟨[30], none, none⟩, [10, 20])
    ∧ Queue.remove (⟨[10, 20, 30], none, none⟩ : Queue Nat) 2 (some 1) =
        Except.error "Invalid start or end values."
    ∧ (Queue.remove (⟨[10, 20, 30], none, none⟩ : Queue Nat) 5 none).map
        (fun r => r.2.length) = Except.ok 0 := by
  refine ⟨?_, ?_, ?_⟩
  · have h := c6_remove_amended.2.1 (⟨[10, 20, 30], none, none⟩ : Queue Nat)
      0 2 (by decide) (by decide)
    simpa using h
  · exact c6_remove_amended.1 (⟨[10, 20, 30], none, none⟩ : Queue Nat) 2 1
      (by decide)
  · have h := c6_remove_amended.2.2 (⟨[10, 20, 30], none, none⟩ : Queue Nat) 5
    simpa using h

/-- C4: for every player not in MOVING or RESUMING state, a TrackEnd with
reason `replaced` emits only the track-end event, sets `previous` to the
old `current`, leaves `current` and the pending sequence untouched, and
starts no playback. -/
theorem c4_replaced_sets_previous_only {α : Type} (autoPlay : Bool)
    (p : PlayerQ α) (h1 : p.state ≠ PState.MOVING)
    (h2 : p.state ≠ PState.RESUMING) :
    Node.trackEnd autoPlay p EndReason.replaced =
      ⟨{ p with queue := { p.queue with previous := p.queue.current } },
       [DomainEvent.trackEnd], false⟩ := by
  simp [Node.trackEnd, h1, h2]

/-- C4 witness: the `replaced` case on a concrete CONNECTED player with
current `0` and pending `[1]`. -/
theorem c4_witness :
    Node.trackEnd true
        (⟨PState.CONNECTED, false, false, false, true,
          ⟨[1], some 0, none⟩⟩ : PlayerQ Nat) EndReason.replaced =
      ⟨⟨PState.CONNECTED, false, false, false, true, ⟨[1], some 0, some 0⟩⟩,
       [DomainEvent.trackEnd], false⟩ :=
  c4_replaced_sets_previous_only true _ (by decide) (by decide)

/-- C1 counterexample: the claim predicts that on a queue with current `A`
and pending `[B]`, a `stopped` TrackEnd with `trackRepeat` on leaves
`current = A`.  With `A = 0`, `B = 1`, the handler re-inserts `A`,
advances onto it, and then the `stopped` re-check shifts a second time, so
`current` ends as `B = 1`, not `A = 0`. -/
theorem c1_counterexample :
    (Node.trackEnd true
        (⟨PState.CONNECTED, true, false, false, true,
          ⟨[1], some 0, none⟩⟩ : PlayerQ Nat)
        EndReason.stopped).player.queue.current ≠ some 0 := by
  decide

/-- C1 amended: for a player not in MOVING or RESUMING state with
`trackRepeat` on, current `A` and pending `[B]`, a `stopped` TrackEnd
re-inserts `A` at the head and advances onto it, but the `stopped`
re-check then dequeues a second time: afterwards `current = B`,
`previous = A`, the pending sequence is empty, and only the track-end
event is emitted. -/
theorem c1_stopped_trackRepeat_amended {α : Type} (autoPlay : Bool)
    (st : PState) (qr auto pl : Bool) (A B : α) (prev : Option α)
    (h1 : st ≠ PState.MOVING) (h2 : st ≠ PState.RESUMING) :
    Node.trackEnd autoPlay
        (⟨st, true, qr, auto, pl, ⟨[B], some A, prev⟩⟩ : PlayerQ α)
        EndReason.stopped =
      ⟨⟨st, true, qr, auto, pl, ⟨[], some B, some A⟩⟩,
       [DomainEvent.trackEnd], autoPlay⟩ := by
  simp [Node.trackEnd, h1, h2]

/-- C1 witness: the amended claim at `A = 0`, `B = 1` on a CONNECTED
player. -/
theorem c1_witness :
    Node.trackEnd true
        (⟨PState.CONNECTED, true, false, false, true,
          ⟨[1], some 0, none⟩⟩ : PlayerQ Nat) EndReason.stopped =
      ⟨⟨PState.CONNECTED, true, false, false, true, ⟨[], some 1, some 0⟩⟩,
       [DomainEvent.trackEnd], true⟩ :=
  c1_stopped_trackRepeat_amended true PState.CONNECTED false false true 0 1
    none (by decide) (by decide)

/-- C2 (code bug evaluation): a node with retry ceiling 2, initially
connected, after two non-normal closes (code 1006) each followed by the
reconnect timer firing.  The timer body reaches `attempts >= retryAmount`,
emits exactly one fatal `nodeError` and calls `destroy()` — but
`destroy()` returns immediately because the socket is not open, so the
node stays in the node set of the manager, `nodeDestroy` is never emitted, and
no further reconnect is pending. -/
theorem c2_retry_exhaustion_eval :
    runNode (some 2) NodeConn.fresh
        [NEvent.close 1006 false, NEvent.timer,
         NEvent.close 1006 false, NEvent.timer] =
      ⟨true, false, 2, false, true, 1, false⟩ := by
  decide

/-- C9 counterexample: the claim predicts that a successful "open" resets
the reconnect-attempt counter to its initial value 1.  Starting from a
fresh node with retry ceiling 5, after one non-normal close, the timer
firing (one reconnect, counter now 2) and a successful open, the counter
is still 2. -/
theorem c9_counterexample :
    (runNode (some 5) NodeConn.fresh
        [NEvent.close 1006 false, NEvent.timer, NEvent.openEvt]).attempts
      ≠ 1 := by
  decide

/-- C9 amended: the WebSocket "open" handler clears any pending reconnect
timer (and the socket becomes OPEN), but leaves the reconnect-attempt
counter untouched — the counter is reset to 1 only by `destroy()`, so a
later sequence of non-normal closes resumes from the prior counter
value. -/
theorem c9_open_clears_timer_amended (retryAmount : Option Nat)
    (s : NodeConn) :
    (nodeStep retryAmount s NEvent.openEvt).timerPending = false
    ∧ (nodeStep retryAmount s NEvent.openEvt).attempts = s.attempts
    ∧ (nodeStep retryAmount s NEvent.openEvt).fatalErrors = s.fatalErrors
    ∧ (nodeStep retryAmount s NEvent.openEvt).inNodeSet = s.inNodeSet := by
  simp [nodeStep]

/-- C7 (code bug evaluation): the `ready` resume loop over the remote
players `[g1, g2]`, both of whose persisted snapshots are missing
`voiceChannel`.  The loop deletes the stale snapshot of `g1` and then hits
`return` — which exits the whole handler instead of continuing — so
the stale snapshot of `g2` survives in the store; no local player is created
for either guild. -/
theorem c7_resume_return_eval :
    resumePlayers ["g1", "g2"]
        ⟨[("g1", ⟨some "g1", none, some "t1", some "enc1"⟩),
          ("g2", ⟨some "g2", none, some "t2", some "enc2"⟩)], []⟩ =
      ⟨[("g2", ⟨some "g2", none, some "t2", some "enc2"⟩)], []⟩ := by
  decide

/-- C8: for a player with a current track, moved to an existing target
node different from its own, `moveNode` pushes to the destination a
full-state payload whose `encodedTrack` is the encoded payload of the current
track, whose `position` is the live reported position of the source when
the source node is connected and the cached player position otherwise,
whose `volume` is the player volume, and whose `filters` are the
player filter categories unchanged (followed by the voice-credential
payload, the node reference of the player becoming the target). -/
theorem c8_moveNode_preserves_state (nodes : List NodeInfo)
    (fetchedPosition : Nat) (p : MPlayer) (target enc : String)
    (hmem : nodes.any (fun n => decide (n.identifier = target)) = true)
    (hne : p.nodeId ≠ target) (henc : p.currentTrack = some enc) :
    Player.moveNode nodes fetchedPosition p (some target) =
      Except.ok (some
        (⟨p.guild, some enc,
          (if nodes.any (fun n => decide (n.identifier = p.nodeId) && n.connected)
           then fetchedPosition else p.position),
          p.volume, p.paused, p.filters⟩,
         ⟨p.voiceToken, p.voiceEndpoint, p.voiceSessionId⟩),
        { p with nodeId := target }) := by
  simp [Player.moveNode, Option.orElse, hmem, hne, henc]

/-- C8 witness: a concrete two-node move with the source node
disconnected, so the pushed position is the cached one. -/
theorem c8_witness :
    Player.moveNode
        [⟨"a", false, 0, 1⟩, ⟨"b", true, 0, 1⟩] 9999
        ⟨"g", some "enc", 1234, 80, false,
          ⟨none, [1], none, none, none, none, 100⟩,
          "a", "tok", "end", "sess"⟩ (some "b") =
      Except.ok (some
        (⟨"g", some "enc", 1234, 80, false,
           ⟨none, [1], none, none, none, none, 100⟩⟩,
         ⟨"tok", "end", "sess"⟩),
        ⟨"g", some "enc", 1234, 80, false,
          ⟨none, [1], none, none, none, none, 100⟩,
          "b", "tok", "end", "sess"⟩) := by
  have h := c8_moveNode_preserves_state
      [⟨"a", false, 0, 1⟩, ⟨"b", true, 0, 1⟩] 9999
      ⟨"g", some "enc", 1234, 80, false,
        ⟨none, [1], none, none, none, none, 100⟩,
        "a", "tok", "end", "sess"⟩ "b" "enc" (by decide) (by decide) rfl
  simpa using h

/-- One setter call preserves the at-most-one-flag invariant. -/
theorem repeatCall_preserves_atMostOne (f : RepeatFlags) (c : RepeatCall)
    (h : atMostOneRepeat f = true) :
    atMostOneRepeat (applyRepeatCall f c) = true := by
  cases c with
  | track r =>
      cases r <;>
        simp [applyRepeatCall, Player.setTrackRepeat, atMostOneRepeat]
  | queueLoop r =>
      cases r <;>
        simp [applyRepeatCall, Player.setQueueRepeat, atMostOneRepeat]
  | dynamic r s ms =>
      by_cases hs : s ≤ 1
      · simpa [applyRepeatCall, Player.setDynamicRepeat, hs] using h
      · cases r <;>
          simp [applyRepeatCall, Player.setDynamicRepeat, hs, atMostOneRepeat]

/-- The invariant survives any sequence of setter calls. -/
theorem foldl_repeat_atMostOne (calls : List RepeatCall) (f : RepeatFlags)
    (h : atMostOneRepeat f = true) :
    atMostOneRepeat (calls.foldl applyRepeatCall f) = true := by
  induction calls generalizing f with
  | nil => exact h
  | cons c cs ih => exact ih _ (repeatCall_preserves_atMostOne f c h)

/-- C10: from the all-false construction state, after every sequence of
calls to the three repeat setters at most one of `trackRepeat`,
`queueRepeat`, `dynamicRepeat` is true; enabling any one of the three
modes disables the other two, and disabling any mode leaves all three
false (for the dynamic setter, on the calls that pass its
`queue.size > 1` guard). -/
theorem c10_repeat_modes_exclusive :
    (∀ calls : List RepeatCall,
        atMostOneRepeat
          (calls.foldl applyRepeatCall ⟨false, false, false⟩) = true)
  ∧ (∀ f, Player.setTrackRepeat true f = ⟨true, false, false⟩)
  ∧ (∀ f, Player.setQueueRepeat true f = ⟨false, true, false⟩)
  ∧ (∀ f s ms, 1 < s →
      Player.setDynamicRepeat true s ms f = Except.ok ⟨false, false, true⟩)
  ∧ (∀ f, Player.setTrackRepeat false f = ⟨false, false, false⟩)
  ∧ (∀ f, Player.setQueueRepeat false f = ⟨false, false, false⟩)
  ∧ (∀ f s ms, 1 < s →
      Player.setDynamicRepeat false s ms f =
        Except.ok ⟨false, false, false⟩) := by
  refine ⟨fun calls => foldl_repeat_atMostOne calls _ (by decide),
    fun f => rfl, fun f => rfl, ?_, fun f => rfl, fun f => rfl, ?_⟩
  · intro f s ms hs
    simp [Player.setDynamicRepeat, Nat.not_le.mpr hs]
  · intro f s ms hs
    simp [Player.setDynamicRepeat, Nat.not_le.mpr hs]

/-- C10 witness: the invariant after a concrete call sequence, plus the
enable and disable of the dynamic setter at queue size 3. -/
theorem c10_witness :
    atMostOneRepeat
        ([RepeatCall.track true, RepeatCall.dynamic true 3 1000,
          RepeatCall.queueLoop true].foldl applyRepeatCall
          ⟨false, false, false⟩) = true
    ∧ Player.setDynamicRepeat true 3 1000 ⟨true, false, false⟩ =
        Except.ok ⟨false, false, true⟩
    ∧ Player.setDynamicRepeat false 3 1000 ⟨false, false, true⟩ =
        Except.ok ⟨false, false, false⟩ :=
  ⟨c10_repeat_modes_exclusive.1 _,
   c10_repeat_modes_exclusive.2.2.2.1 ⟨true, false, false⟩ 3 1000 (by decide),
   c10_repeat_modes_exclusive.2.2.2.2.2.2 ⟨false, false, true⟩ 3 1000
     (by decide)⟩
